import Mathlib

/-!
Verification of the SSO configuration module (`synapse/config/sso.py`).

We shallowly embed the Python source: configuration values (the result of
parsing YAML/JSON) become an inductive `Value` type with Python truthiness,
`dict.get` becomes association-list lookup defaulting to `Value.vnull`
(Python's `None`), `x or y` becomes `pyOr`, and the fallible parts of
`read_config` (attribute access on a wrongly-typed object, tuple
destructuring) return `Except PyError`.
-/

/-- A parsed configuration value, as Python sees it after YAML/JSON loading:
`None`, booleans, integers, strings, lists and string-keyed dicts
(dicts modelled as association lists in insertion order). -/
inductive Value where
  | vnull : Value
  | vbool : Bool → Value
  | vint : Int → Value
  | vstr : String → Value
  | vlist : List Value → Value
  | vdict : List (String × Value) → Value

/-- Python truthiness of a configuration value: `None`, `False`, `0`, `""`,
`[]` and `{}` are falsy, everything else is truthy. -/
def truthy : Value → Bool
  | .vnull => false
  | .vbool b => b
  | .vint n => n != 0
  | .vstr s => s != ""
  | .vlist xs => !xs.isEmpty
  | .vdict d => !d.isEmpty

/-- Python `x or y`: the left operand when truthy, otherwise the right. -/
def pyOr (x y : Value) : Value :=
  if truthy x then x else y

/-- Python `d.get(k)` on a dict: the bound value, or `None` when absent. -/
def dictGet (d : List (String × Value)) (k : String) : Value :=
  (List.lookup k d).getD Value.vnull

/-- Runtime errors that the embedded slice of `read_config` can raise:
attribute access on an object lacking the attribute (`.get` on a non-dict,
`.append` on a non-list) and mis-sized tuple destructuring. -/
inductive PyError where
  | attributeError : PyError
  | valueError : PyError
  deriving DecidableEq

/-- A renderable template handle as returned by the template-resolution
collaborator; `render` is the output of rendering it with no variables. -/
structure Template where
  render : String

/-- Modelled from the spec: the template-resolution collaborator
(`Config.read_templates`, defined on the base configuration class, which is
not part of this slice) resolves each named template file against the
optional override directory and returns one renderable template handle per
name, falling back to built-in default templates when a file is missing.
We model the resolution outcome as an abstract environment `env` giving the
handle for each (file name, override directory) pair. -/
def read_templates (env : String → Value → Template)
    (filenames : List String) (custom_template_directory : Value) :
    List Template :=
  filenames.map (fun n => env n custom_template_directory)

/-- The frozen attrs class `SsoAttributeRequirement`: a single requirement
for SSO attributes. If `value` is not given, the attribute must simply
exist. -/
structure SsoAttributeRequirement where
  «attribute» : String
  value : Option String
  deriving DecidableEq

/-- The `__eq__` method that `@attr.s(frozen=True)` generates for
`SsoAttributeRequirement`: structural comparison of the field tuple
`(attribute, value)`. -/
def SsoAttributeRequirement.pyEq (a b : SsoAttributeRequirement) : Bool :=
  a.«attribute» == b.«attribute» && a.value == b.value

/-- The static schema descriptor `SsoAttributeRequirement.JSON_SCHEMA`,
embedded as a configuration value. -/
def SsoAttributeRequirement.JSON_SCHEMA : Value :=
  .vdict
    [("type", .vstr "object"),
     ("properties",
       .vdict
         [("attribute", .vdict [("type", .vstr "string")]),
          ("value", .vdict [("type", .vstr "string")])]),
     ("required", .vlist [.vstr "attribute", .vstr "value"])]

/-- Indexing a `Value` dict by key, `None` when absent or not a dict;
used only to state properties of schema constants. -/
def dictGetV : Value → String → Value
  | .vdict d, k => dictGet d k
  | _, _ => .vnull

/-- The keys of a `Value` dict, in order; `[]` when not a dict. -/
def dictKeys : Value → List String
  | .vdict d => d.map (fun p => p.1)
  | _ => []

/-- The settings object that `SSOConfig.read_config` populates on `self`:
one field per `self.sso_*` assignment, in assignment order. The fields read
from the raw config section keep type `Value` because the source performs no
type validation; the two pre-rendered templates are plain strings. -/
structure SSOConfig where
  sso_template_dir : Value
  sso_login_idp_picker_template : Template
  sso_redirect_confirm_template : Template
  sso_auth_confirm_template : Template
  sso_error_template : Template
  sso_account_deactivated_template : String
  sso_auth_success_template : String
  sso_auth_bad_user_template : Template
  sso_client_whitelist : Value
  sso_update_profile_information : Value

/-- The body of `SSOConfig.read_config` after the section has been
extracted: `sso_val` is the result of `config.get("sso") or {}`. On a dict
it reads `template_dir`, resolves the seven templates, pre-renders the
account-deactivated and auth-success templates, reads `client_whitelist`
and `update_profile_information` with falsy-coalescing defaults, and, when
`public_baseurl` is truthy, appends `public_baseurl +
"_matrix/static/client/login"` to the whitelist (an `AttributeError` when
the whitelist value has no `append`). On a truthy non-dict section, the
first `.get` raises `AttributeError`. -/
def read_config_section (env : String → Value → Template)
    (sso_val : Value) (public_baseurl : Option String) :
    Except PyError SSOConfig :=
  match sso_val with
  | .vdict sso_config =>
    let sso_template_dir := dictGet sso_config "template_dir"
    match read_templates env
        ["sso_login_idp_picker.html",
         "sso_redirect_confirm.html",
         "sso_auth_confirm.html",
         "sso_error.html",
         "sso_account_deactivated.html",
         "sso_auth_success.html",
         "sso_auth_bad_user.html"] sso_template_dir with
    | [idp_picker_t, redirect_confirm_t, auth_confirm_t, error_t,
       account_deactivated_t, auth_success_t, auth_bad_user_t] =>
      let sso_client_whitelist :=
        pyOr (dictGet sso_config "client_whitelist") (.vlist [])
      let sso_update_profile_information :=
        pyOr (dictGet sso_config "update_profile_information") (.vbool false)
      let base : SSOConfig :=
        { sso_template_dir := sso_template_dir
          sso_login_idp_picker_template := idp_picker_t
          sso_redirect_confirm_template := redirect_confirm_t
          sso_auth_confirm_template := auth_confirm_t
          sso_error_template := error_t
          sso_account_deactivated_template := account_deactivated_t.render
          sso_auth_success_template := auth_success_t.render
          sso_auth_bad_user_template := auth_bad_user_t
          sso_client_whitelist := sso_client_whitelist
          sso_update_profile_information := sso_update_profile_information }
      match public_baseurl with
      | some pb =>
        if pb = "" then .ok base
        else
          let login_fallback_url := pb ++ "_matrix/static/client/login"
          match sso_client_whitelist with
          | .vlist xs =>
            .ok { base with
                  sso_client_whitelist :=
                    .vlist (xs ++ [.vstr login_fallback_url]) }
          | _ => .error .attributeError
      | none => .ok base
    | _ => .error .valueError
  | _ => .error .attributeError

/-- `SSOConfig.read_config`: extract the `sso` section with
`config.get("sso") or {}` and process it. `public_baseurl` is the
already-resolved optional public base URL held by the base `Config` class
(`None` or a string); `env` stands for the template files on disk. -/
def read_config (env : String → Value → Template)
    (config : List (String × Value)) (public_baseurl : Option String) :
    Except PyError SSOConfig :=
  read_config_section env (pyOr (dictGet config "sso") (.vdict [])) public_baseurl

/-- Number of occurrences of the string `s` among the elements of a list of
configuration values. -/
def countStrList (s : String) : List Value → Nat
  | [] => 0
  | .vstr t :: r => (if t = s then 1 else 0) + countStrList s r
  | _ :: r => countStrList s r

/-- Number of occurrences of the string `s` in a whitelist value (0 when
the value is not a list). -/
def countStr (s : String) : Value → Nat
  | .vlist xs => countStrList s xs
  | _ => 0

/-- A degenerate template environment: every file resolves to an empty
template. Used to instantiate concrete scenarios. -/
def envDefault : String → Value → Template :=
  fun _ _ => ⟨""⟩

/-! ### Helper lemmas -/

theorem pyOr_vlist_nil (xs : List Value) : pyOr (.vlist xs) (.vlist []) = .vlist xs := by
  cases xs <;> rfl

theorem truthy_vnull : truthy .vnull = false := rfl

theorem truthy_vdict_cons (p : String × Value) (rest : List (String × Value)) :
    truthy (.vdict (p :: rest)) = true := rfl

theorem truthy_vstr_of_ne {s : String} (h : s ≠ "") : truthy (.vstr s) = true := by
  simp [truthy, h]

theorem pyOr_of_truthy {x : Value} (y : Value) (h : truthy x = true) : pyOr x y = x := by
  simp [pyOr, h]

theorem pyOr_of_falsy {x : Value} (y : Value) (h : truthy x = false) : pyOr x y = y := by
  simp [pyOr, h]

theorem countStrList_append (s : String) (xs ys : List Value) :
    countStrList s (xs ++ ys) = countStrList s xs + countStrList s ys := by
  induction xs with
  | nil => simp [countStrList]
  | cons x r ih =>
    cases x <;> simp [countStrList, ih, Nat.add_assoc]

/-- Processing two section dicts that agree on the three keys that
`read_config` reads yields the same settings object. -/
theorem read_config_section_congr (env : String → Value → Template)
    (pb : Option String) (dA dB : List (String × Value))
    (ht : dictGet dA "template_dir" = dictGet dB "template_dir")
    (hw : pyOr (dictGet dA "client_whitelist") (.vlist [])
        = pyOr (dictGet dB "client_whitelist") (.vlist []))
    (hu : pyOr (dictGet dA "update_profile_information") (.vbool false)
        = pyOr (dictGet dB "update_profile_information") (.vbool false)) :
    read_config_section env (.vdict dA) pb = read_config_section env (.vdict dB) pb := by
  simp only [read_config_section, read_templates, List.map, ht, hw, hu]

/-! ### Claims -/

/-- C1 (counterexample): as stated, the claim is false. With
`public_baseurl = "https://example.org/"` and a user-supplied
`client_whitelist` that already contains
`"https://example.org/_matrix/static/client/login"`, the fallback entry is
appended unconditionally, so it occurs twice in the resulting whitelist,
not exactly once. -/
theorem C1_duplicate_fallback_counterexample :
    (read_config envDefault
        [("sso", .vdict [("client_whitelist",
            .vlist [.vstr "https://example.org/_matrix/static/client/login"])])]
        (some "https://example.org/")).map
      (fun st => countStr "https://example.org/_matrix/static/client/login"
        st.sso_client_whitelist) = .ok 2 ∧
    ¬ (read_config envDefault
        [("sso", .vdict [("client_whitelist",
            .vlist [.vstr "https://example.org/_matrix/static/client/login"])])]
        (some "https://example.org/")).map
      (fun st => countStr "https://example.org/_matrix/static/client/login"
        st.sso_client_whitelist) = .ok 1 := by
  constructor
  · rfl
  · intro h
    rw [show (read_config envDefault
        [("sso", .vdict [("client_whitelist",
            .vlist [.vstr "https://example.org/_matrix/static/client/login"])])]
        (some "https://example.org/")).map
      (fun st => countStr "https://example.org/_matrix/static/client/login"
        st.sso_client_whitelist) = .ok 2 from rfl] at h
    exact absurd (Except.ok.inj h) (by decide)

/-- C1 (amended): if a public base URL is configured (non-empty) and the
user-supplied `client_whitelist` is a list that does not already contain
`<publicBaseUrl> ++ "_matrix/static/client/login"`, then the whitelist
produced by `read_config` is the user entries followed by that fallback
entry, and the fallback entry occurs exactly once. -/
theorem C1_fallback_appended_once_when_fresh (env : String → Value → Template)
    (d : List (String × Value)) (xs : List Value) (b : String)
    (hb : b ≠ "")
    (hd : List.lookup "client_whitelist" d = some (.vlist xs))
    (hfresh : countStrList (b ++ "_matrix/static/client/login") xs = 0) :
    (read_config env [("sso", .vdict d)] (some b)).map
        (fun st => st.sso_client_whitelist)
      = .ok (.vlist (xs ++ [.vstr (b ++ "_matrix/static/client/login")])) ∧
    (read_config env [("sso", .vdict d)] (some b)).map
        (fun st => countStr (b ++ "_matrix/static/client/login")
          st.sso_client_whitelist) = .ok 1 := by
  have hd' : d ≠ [] := by intro h; subst h; simp [List.lookup] at hd
  match d, hd' with
  | p :: rest, _ =>
    constructor
    · simp [read_config, read_config_section, read_templates, dictGet, hd, hb,
        truthy_vdict_cons, pyOr_vlist_nil, pyOr_of_truthy, Except.map]
    · simp [read_config, read_config_section, read_templates, dictGet, hd, hb,
        truthy_vdict_cons, pyOr_vlist_nil, pyOr_of_truthy, Except.map,
        countStr, countStrList_append, hfresh, countStrList]

/-- C1 (witness). -/
theorem C1_fallback_appended_once_when_fresh_witness :
    (read_config envDefault
        [("sso", .vdict [("client_whitelist", .vlist [.vstr "https://a/"])])]
        (some "https://example.org/")).map
        (fun st => st.sso_client_whitelist)
      = .ok (.vlist [.vstr "https://a/",
          .vstr "https://example.org/_matrix/static/client/login"]) ∧
    (read_config envDefault
        [("sso", .vdict [("client_whitelist", .vlist [.vstr "https://a/"])])]
        (some "https://example.org/")).map
        (fun st => countStr "https://example.org/_matrix/static/client/login"
          st.sso_client_whitelist) = .ok 1 :=
  C1_fallback_appended_once_when_fresh envDefault
    [("client_whitelist", .vlist [.vstr "https://a/"])]
    [.vstr "https://a/"] "https://example.org/"
    (by decide) rfl (by decide)

/-- C2: when the public base URL is present and non-empty, `read_config`
appends exactly one new final entry — the plain string concatenation of the
base URL and `"_matrix/static/client/login"` — after the user-supplied
entries, preserving their order; in particular, with
`public_baseurl = "https://example.org/"` and an empty `client_whitelist`
the result is exactly
`["https://example.org/_matrix/static/client/login"]`. -/
theorem C2_fallback_concatenation (env : String → Value → Template)
    (d : List (String × Value)) (xs : List Value) (b : String)
    (hb : b ≠ "")
    (hd : List.lookup "client_whitelist" d = some (.vlist xs)) :
    (read_config env [("sso", .vdict d)] (some b)).map
        (fun st => st.sso_client_whitelist)
      = .ok (.vlist (xs ++ [.vstr (b ++ "_matrix/static/client/login")])) ∧
    (read_config env [] (some "https://example.org/")).map
        (fun st => st.sso_client_whitelist)
      = .ok (.vlist [.vstr "https://example.org/_matrix/static/client/login"]) := by
  have hd' : d ≠ [] := by intro h; subst h; simp [List.lookup] at hd
  constructor
  · match d, hd' with
    | p :: rest, _ =>
      simp [read_config, read_config_section, read_templates, dictGet, hd, hb,
        truthy_vdict_cons, pyOr_vlist_nil, pyOr_of_truthy, Except.map]
  · rfl

/-- C2 (witness). -/
theorem C2_fallback_concatenation_witness :
    (read_config envDefault
        [("sso", .vdict [("client_whitelist",
            .vlist [.vstr "https://one/", .vstr "https://two/"])])]
        (some "https://example.org/")).map
        (fun st => st.sso_client_whitelist)
      = .ok (.vlist [.vstr "https://one/", .vstr "https://two/",
          .vstr "https://example.org/_matrix/static/client/login"]) ∧
    (read_config envDefault [] (some "https://example.org/")).map
        (fun st => st.sso_client_whitelist)
      = .ok (.vlist [.vstr "https://example.org/_matrix/static/client/login"]) :=
  C2_fallback_concatenation envDefault
    [("client_whitelist", .vlist [.vstr "https://one/", .vstr "https://two/"])]
    [.vstr "https://one/", .vstr "https://two/"] "https://example.org/"
    (by decide) rfl

/-- C3: when the public base URL is absent (`None`), the whitelist produced
by `read_config` is the configured `client_whitelist` list unchanged — no
fallback entry is appended. -/
theorem C3_no_baseurl_whitelist_unchanged (env : String → Value → Template)
    (d : List (String × Value)) (xs : List Value)
    (hd : List.lookup "client_whitelist" d = some (.vlist xs)) :
    (read_config env [("sso", .vdict d)] none).map
        (fun st => st.sso_client_whitelist) = .ok (.vlist xs) := by
  have hd' : d ≠ [] := by intro h; subst h; simp [List.lookup] at hd
  match d, hd' with
  | p :: rest, _ =>
    simp [read_config, read_config_section, read_templates, dictGet, hd,
      truthy_vdict_cons, pyOr_vlist_nil, pyOr_of_truthy, Except.map]

/-- C3 (witness). -/
theorem C3_no_baseurl_whitelist_unchanged_witness :
    (read_config envDefault
        [("sso", .vdict [("client_whitelist",
            .vlist [.vstr "https://riot.im/develop"])])] none).map
        (fun st => st.sso_client_whitelist)
      = .ok (.vlist [.vstr "https://riot.im/develop"]) :=
  C3_no_baseurl_whitelist_unchanged envDefault
    [("client_whitelist", .vlist [.vstr "https://riot.im/develop"])]
    [.vstr "https://riot.im/develop"] rfl

/-- C4: a configuration with no `sso` section yields exactly the same
settings object as the same configuration with an explicitly-empty `sso`
section. -/
theorem C4_absent_section_defaults (env : String → Value → Template)
    (pb : Option String) (cfg : List (String × Value))
    (h : List.lookup "sso" cfg = none) :
    read_config env cfg pb = read_config env (("sso", Value.vdict []) :: cfg) pb := by
  simp [read_config, dictGet, List.lookup, h, pyOr, truthy]

/-- C4 (witness). -/
theorem C4_absent_section_defaults_witness :
    read_config envDefault [] none
      = read_config envDefault [("sso", Value.vdict [])] none :=
  C4_absent_section_defaults envDefault none [] rfl

/-- C5 (counterexample): as stated, the claim is false. With
`update_profile_information` bound to the integer `5` (not a boolean) and
`client_whitelist` bound to a plain string (not a sequence of strings),
`read_config` does not raise any error: it succeeds and stores the
wrongly-typed value as-is. -/
theorem C5_wrong_type_accepted_counterexample :
    (read_config envDefault
        [("sso", .vdict [("update_profile_information", .vint 5),
                         ("client_whitelist", .vstr "not-a-list")])] none).map
      (fun st => st.sso_update_profile_information) = .ok (.vint 5) := rfl

/-- C5 (amended): `read_config` performs no type validation on the `sso`
section's fields. Any truthy value configured for
`update_profile_information` — of whatever type — is stored as-is and no
error is raised. The only wrong-type failure inside `read_config` itself is
an `AttributeError` when a public base URL is configured and
`client_whitelist` holds a truthy non-list value (here a non-empty string),
because appending the login-fallback URL then fails. -/
theorem C5_no_type_validation (env : String → Value → Template)
    (v : Value) (d : List (String × Value)) (b s : String)
    (hv : truthy v = true)
    (hd : List.lookup "update_profile_information" d = some v)
    (hb : b ≠ "") (hs : s ≠ "") :
    (read_config env [("sso", .vdict d)] none).map
        (fun st => st.sso_update_profile_information) = .ok v ∧
    read_config env [("sso", .vdict [("client_whitelist", .vstr s)])] (some b)
      = .error .attributeError := by
  have hd' : d ≠ [] := by intro h; subst h; simp [List.lookup] at hd
  constructor
  · match d, hd' with
    | p :: rest, _ =>
      simp [read_config, read_config_section, read_templates, dictGet, hd,
        truthy_vdict_cons, pyOr_of_truthy, hv, Except.map]
  · simp [read_config, read_config_section, read_templates, dictGet, hb,
      truthy_vdict_cons, pyOr_of_truthy, truthy_vstr_of_ne hs, Except.map,
      List.lookup]

/-- C5 (witness). -/
theorem C5_no_type_validation_witness :
    (read_config envDefault
        [("sso", .vdict [("update_profile_information", .vint 5)])] none).map
        (fun st => st.sso_update_profile_information) = .ok (.vint 5) ∧
    read_config envDefault
        [("sso", .vdict [("client_whitelist", .vstr "not-a-list")])]
        (some "https://example.org/")
      = .error .attributeError :=
  C5_no_type_validation envDefault (.vint 5)
    [("update_profile_information", .vint 5)] "https://example.org/" "not-a-list"
    rfl rfl (by decide) (by decide)

/-- C6: two `SsoAttributeRequirement` instances compare equal under the
attrs-generated equality exactly when their `attribute` and `value` fields
are equal; in particular `("x", None)` equals `("x", None)` and
`("x", "a")` differs from `("x", "b")`. -/
theorem C6_structural_equality (a b : SsoAttributeRequirement) :
    (SsoAttributeRequirement.pyEq a b = true ↔
      (a.«attribute» = b.«attribute» ∧ a.value = b.value)) ∧
    (SsoAttributeRequirement.pyEq a b = true ↔ a = b) ∧
    SsoAttributeRequirement.pyEq ⟨"x", none⟩ ⟨"x", none⟩ = true ∧
    SsoAttributeRequirement.pyEq ⟨"x", some "a"⟩ ⟨"x", some "b"⟩ = false := by
  refine ⟨?_, ?_, by decide, by decide⟩
  · simp [SsoAttributeRequirement.pyEq]
  · cases a
    cases b
    simp [SsoAttributeRequirement.pyEq]

/-- C7: the static schema descriptor `JSON_SCHEMA` is object-shaped, its
properties are exactly `attribute` and `value`, both declared string-typed,
and its required list is exactly `["attribute", "value"]` — so `value` is
marked required even though the in-memory type treats it as optional. -/
theorem C7_json_schema_shape :
    dictGetV SsoAttributeRequirement.JSON_SCHEMA "type" = .vstr "object" ∧
    dictKeys (dictGetV SsoAttributeRequirement.JSON_SCHEMA "properties")
      = ["attribute", "value"] ∧
    dictGetV (dictGetV SsoAttributeRequirement.JSON_SCHEMA "properties")
        "attribute" = .vdict [("type", .vstr "string")] ∧
    dictGetV (dictGetV SsoAttributeRequirement.JSON_SCHEMA "properties")
        "value" = .vdict [("type", .vstr "string")] ∧
    dictGetV SsoAttributeRequirement.JSON_SCHEMA "required"
      = .vlist [.vstr "attribute", .vstr "value"] :=
  ⟨rfl, rfl, rfl, rfl, rfl⟩

/-- C8: on every configuration where `read_config` succeeds, the
account-deactivated and auth-success templates are exposed as the plain
strings obtained by rendering the resolved templates with no variables,
while the idp-picker, redirect-confirm, auth-confirm, error and
auth-bad-user templates are stored as the unrendered handles returned by
the template-resolution collaborator. -/
theorem C8_prerendered_templates (env : String → Value → Template)
    (cfg : List (String × Value)) (pb : Option String) (st : SSOConfig)
    (h : read_config env cfg pb = .ok st) :
    st.sso_account_deactivated_template
        = (env "sso_account_deactivated.html" st.sso_template_dir).render ∧
    st.sso_auth_success_template
        = (env "sso_auth_success.html" st.sso_template_dir).render ∧
    st.sso_login_idp_picker_template
        = env "sso_login_idp_picker.html" st.sso_template_dir ∧
    st.sso_redirect_confirm_template
        = env "sso_redirect_confirm.html" st.sso_template_dir ∧
    st.sso_auth_confirm_template
        = env "sso_auth_confirm.html" st.sso_template_dir ∧
    st.sso_error_template = env "sso_error.html" st.sso_template_dir ∧
    st.sso_auth_bad_user_template
        = env "sso_auth_bad_user.html" st.sso_template_dir := by
  simp only [read_config, read_config_section, read_templates, List.map] at h
  repeat' split at h
  all_goals cases h
  all_goals exact ⟨rfl, rfl, rfl, rfl, rfl, rfl, rfl⟩

/-- C8 (witness). -/
theorem C8_prerendered_templates_witness :
    read_config envDefault [] none
        = .ok ⟨.vnull, ⟨""⟩, ⟨""⟩, ⟨""⟩, ⟨""⟩, "", "", ⟨""⟩, .vlist [], .vbool false⟩ ∧
    SSOConfig.sso_account_deactivated_template
        ⟨.vnull, ⟨""⟩, ⟨""⟩, ⟨""⟩, ⟨""⟩, "", "", ⟨""⟩, .vlist [], .vbool false⟩
      = (envDefault "sso_account_deactivated.html" .vnull).render :=
  ⟨rfl,
   (C8_prerendered_templates envDefault [] none
      ⟨.vnull, ⟨""⟩, ⟨""⟩, ⟨""⟩, ⟨""⟩, "", "", ⟨""⟩, .vlist [], .vbool false⟩ rfl).1⟩

/-- C9: `update_profile_information` defaults to `False` when absent, and
for the configuration `{sso: {update_profile_information: true}}` with no
public base URL the resulting settings have the flag `True` and an empty
whitelist. -/
theorem C9_update_profile_information_flag (env : String → Value → Template)
    (d : List (String × Value))
    (hd : List.lookup "update_profile_information" d = none) :
    (read_config env [("sso", .vdict [("update_profile_information", .vbool true)])]
        none).map (fun st => st.sso_update_profile_information)
      = .ok (.vbool true) ∧
    (read_config env [("sso", .vdict [("update_profile_information", .vbool true)])]
        none).map (fun st => st.sso_client_whitelist) = .ok (.vlist []) ∧
    (read_config env [("sso", .vdict d)] none).map
        (fun st => st.sso_update_profile_information) = .ok (.vbool false) := by
  refine ⟨rfl, rfl, ?_⟩
  cases d with
  | nil => rfl
  | cons p rest =>
    simp [read_config, read_config_section, read_templates, dictGet, hd,
      truthy_vdict_cons, truthy_vnull, pyOr_of_truthy, pyOr_of_falsy, Except.map]

/-- C9 (witness). -/
theorem C9_update_profile_information_flag_witness :
    (read_config envDefault
        [("sso", .vdict [("update_profile_information", .vbool true)])] none).map
        (fun st => st.sso_update_profile_information) = .ok (.vbool true) ∧
    (read_config envDefault
        [("sso", .vdict [("update_profile_information", .vbool true)])] none).map
        (fun st => st.sso_client_whitelist) = .ok (.vlist []) ∧
    (read_config envDefault
        [("sso", .vdict [("template_dir", .vstr "res/templates")])] none).map
        (fun st => st.sso_update_profile_information) = .ok (.vbool false) :=
  C9_update_profile_information_flag envDefault
    [("template_dir", .vstr "res/templates")] rfl

/-- C10: each of the three falsy-coalescing reads (`config.get("sso") or
{}`, `sso_config.get("client_whitelist") or []`,
`sso_config.get("update_profile_information") or False`) maps a key bound
to a falsy value to exactly the settings produced when the key is entirely
absent. -/
theorem C10_falsy_coalescing (env : String → Value → Template)
    (pb : Option String) (v1 v2 v3 : Value)
    (cfg d2 d3 : List (String × Value))
    (h1 : truthy v1 = false) (hc : List.lookup "sso" cfg = none)
    (h2 : truthy v2 = false) (hd2 : List.lookup "client_whitelist" d2 = none)
    (h3 : truthy v3 = false)
    (hd3 : List.lookup "update_profile_information" d3 = none) :
    read_config env (("sso", v1) :: cfg) pb = read_config env cfg pb ∧
    read_config env [("sso", .vdict (("client_whitelist", v2) :: d2))] pb
      = read_config env [("sso", .vdict d2)] pb ∧
    read_config env [("sso", .vdict (("update_profile_information", v3) :: d3))] pb
      = read_config env [("sso", .vdict d3)] pb := by
  refine ⟨?_, ?_, ?_⟩
  · simp [read_config, dictGet, List.lookup, hc, pyOr_of_falsy, h1, truthy_vnull]
  · show read_config_section env
        (pyOr (dictGet [("sso", .vdict (("client_whitelist", v2) :: d2))] "sso")
          (.vdict [])) pb
      = read_config_section env
        (pyOr (dictGet [("sso", .vdict d2)] "sso") (.vdict [])) pb
    cases d2 with
    | nil =>
      simp [dictGet, List.lookup, pyOr, truthy]
      exact read_config_section_congr env pb [("client_whitelist", v2)] []
        rfl (by simp [dictGet, List.lookup, pyOr_of_falsy, h2, truthy_vnull]) rfl
    | cons q rest =>
      simp [dictGet, List.lookup, pyOr_of_truthy, truthy_vdict_cons]
      exact read_config_section_congr env pb (("client_whitelist", v2) :: q :: rest)
        (q :: rest)
        (by simp [dictGet, List.lookup])
        (by simp only [List.lookup] at hd2
            simp [dictGet, List.lookup, hd2, pyOr_of_falsy, h2, truthy_vnull])
        (by simp [dictGet, List.lookup])
  · show read_config_section env
        (pyOr (dictGet [("sso", .vdict (("update_profile_information", v3) :: d3))] "sso")
          (.vdict [])) pb
      = read_config_section env
        (pyOr (dictGet [("sso", .vdict d3)] "sso") (.vdict [])) pb
    cases d3 with
    | nil =>
      simp [dictGet, List.lookup, pyOr, truthy]
      exact read_config_section_congr env pb [("update_profile_information", v3)] []
        rfl rfl (by simp [dictGet, List.lookup, pyOr_of_falsy, h3, truthy_vnull])
    | cons q rest =>
      simp [dictGet, List.lookup, pyOr_of_truthy, truthy_vdict_cons]
      exact read_config_section_congr env pb
        (("update_profile_information", v3) :: q :: rest) (q :: rest)
        (by simp [dictGet, List.lookup])
        (by simp [dictGet, List.lookup])
        (by simp only [List.lookup] at hd3
            simp [dictGet, List.lookup, hd3, pyOr_of_falsy, h3, truthy_vnull])

/-- C10 (witness). -/
theorem C10_falsy_coalescing_witness :
    read_config envDefault [("sso", .vnull)] none = read_config envDefault [] none ∧
    read_config envDefault [("sso", .vdict [("client_whitelist", .vbool false)])] none
      = read_config envDefault [("sso", .vdict [])] none ∧
    read_config envDefault [("sso", .vdict [("update_profile_information", .vlist [])])] none
      = read_config envDefault [("sso", .vdict [])] none :=
  C10_falsy_coalescing envDefault none .vnull (.vbool false) (.vlist []) [] [] []
    rfl rfl rfl rfl rfl rfl
